import Mathlib

/-!
Verification development for the `quark-router` repository (`src/index.js`,
`src/utils.js`): a client-side SPA router.  JavaScript strings are modelled
as Lean `String`, JS objects holding route parameters as ordered association
lists `List (String × String)` (JS objects preserve insertion order for
string keys, and assignment to an existing key keeps its position), and the
`undefined` / `null` / string distinction that drives `navigate`'s control
flow as an explicit three-valued type.  Thrown `TypeError`s (property reads
on `null`/`undefined`) are modelled with `Except`.
-/

namespace QuarkRouter

/-! ### String utilities (`src/utils.js`) -/

/-- First index `≥ i` at which `pat` occurs in `s`, scanning character by
character; `none` when there is no occurrence.  This is the search that
JavaScript `String.prototype.indexOf(pat, i)` performs. -/
def idxOfAux (pat : List Char) : List Char → Nat → Option Nat
  | [], i => if pat.isPrefixOf ([] : List Char) then some i else none
  | c :: t, i =>
    if pat.isPrefixOf (c :: t) then some i else idxOfAux pat t (i + 1)

/-- JS `s.indexOf(pat, i)` for a non-negative (already clamped) start
index: `-1` when not found. -/
def jsIndexOfFrom (s pat : String) (i : Nat) : Int :=
  match idxOfAux pat.data (s.data.drop i) i with
  | some n => Int.ofNat n
  | none => -1

/-- `utils.startsWith`: `str.indexOf(pre) === 0`. -/
def startsWith (str pre : String) : Bool :=
  jsIndexOfFrom str pre 0 == 0

/-- `utils.endsWith`: `str.indexOf(suffix, str.length - suffix.length) >= 0`
(JS clamps a negative start index to 0). -/
def endsWith (str suffix : String) : Bool :=
  jsIndexOfFrom str suffix ((str.length : Int) - (suffix.length : Int)).toNat ≥ 0

/-- `utils.addLeadingSlash`: `str.charAt(0) === '/' ? str : '/' + str`. -/
def addLeadingSlash (str : String) : String :=
  if str.data.head? = some '/' then str else "/" ++ str

/-- `utils.stripTrailingSlash`: drop the last character (`slice(0, -1)`)
when the string ends with a slash. -/
def stripTrailingSlash (str : String) : String :=
  if endsWith str "/" then ⟨str.data.dropLast⟩ else str

/-- `utils.stripSlashes`: `str.replace(/\\/g, '')` — the regex escapes a
backslash, so this removes backslashes, not forward slashes. -/
def stripSlashes (str : String) : String :=
  ⟨str.data.filter (· ≠ '\\')⟩

/-! ### Route definitions and configuration -/

/-- A route definition supplied at construction (`options.routes[i]`):
`name`, `path` pattern, whether a `callback` function is present, and the
optional `component` key. -/
structure RouteDef where
  name : String
  path : String
  hasCallback : Bool := false
  component : Option String := none
  deriving DecidableEq, Repr, Inhabited

/-- Constructor options (lines 105–113), with the constructor's defaults. -/
structure ConstructorOpts where
  routes : List RouteDef := []
  components : List String := []
  basePath : String := "/"
  mode : String := "browser"
  locale : String := ""
  debugMode : Bool := false
  deriving Repr

/-- Router configuration after the constructor's normalisation
(lines 115–122): `basePath` loses a trailing slash, `locale` goes through
`stripSlashes`.  `components` lists the keys bound to component functions. -/
structure Config where
  routes : List RouteDef
  components : List String
  basePath : String
  mode : String
  locale : String
  debugMode : Bool
  deriving Repr

/-- Constructor lines 115–122. -/
def mkConfig (o : ConstructorOpts) : Config :=
  { routes := o.routes
    components := o.components
    basePath := stripTrailingSlash o.basePath
    mode := o.mode
    locale := stripSlashes o.locale
    debugMode := o.debugMode }

/-! ### Path pattern matcher

Modelled from the spec: the external `path-to-regexp` dependency compiles a
path template of static segments and `:name` parameter segments into a
matcher that either rejects a concrete path or returns the list of captured
segment values (a parameter segment captures one non-empty path segment),
together with the ordered list of declared parameter names. -/

/-- One pattern segment: static text or a named parameter. -/
inductive Seg where
  | static (s : String)
  | param (k : String)
  deriving DecidableEq, Repr

/-- Split a character list on `/`, accumulating the current segment in
reverse. -/
def splitPathAux : List Char → List Char → List String
  | [], acc => [⟨acc.reverse⟩]
  | c :: t, acc =>
    if c = '/' then ⟨acc.reverse⟩ :: splitPathAux t [] else splitPathAux t (c :: acc)

/-- Split a path on `/` (so `/a/b` gives `["", "a", "b"]`). -/
def splitPath (p : String) : List String :=
  splitPathAux p.data []

/-- Parse a pattern string into segments: a segment starting with `:`
declares a named parameter. -/
def parsePattern (p : String) : List Seg :=
  (splitPath p).map fun s =>
    if s.data.head? = some ':' then Seg.param (s.drop 1) else Seg.static s

/-- Declared parameter names, in pattern order. -/
def keysOf : List Seg → List String
  | [] => []
  | Seg.static _ :: t => keysOf t
  | Seg.param k :: t => k :: keysOf t

/-- Match pattern segments against path segments; returns the captured
values of the parameter segments, in order.  A parameter matches exactly
one non-empty segment. -/
def matchSegs : List Seg → List String → Option (List String)
  | [], [] => some []
  | Seg.static s :: pt, v :: vt => if v = s then matchSegs pt vt else none
  | Seg.param _ :: pt, v :: vt =>
    if v = "" then none else (matchSegs pt vt).map (v :: ·)
  | _, _ => none

/-! ### Params objects (`params[key] = value` in `_match`, `lodash.merge`) -/

/-- JS object property assignment on an ordered string map: an existing key
keeps its position and gets the new value, a fresh key is appended. -/
def insertAssoc : List (String × String) → String → String → List (String × String)
  | [], k, v => [(k, v)]
  | (k', v') :: t, k, v =>
    if k' = k then (k, v) :: t else (k', v') :: insertAssoc t k v

/-- The parameter-building loop of `_match` (lines 626–628):
`params[keys[j].name] = rawParams[j]` for each capture in order. -/
def buildParams (keys caps : List String) : List (String × String) :=
  (keys.zip caps).foldl (fun acc kv => insertAssoc acc kv.1 kv.2) []

/-- `lodash.merge(dst, src)` restricted to flat string maps: every source
property is assigned onto the destination in source order. -/
def mergeAssoc (dst src : List (String × String)) : List (String × String) :=
  src.foldl (fun acc kv => insertAssoc acc kv.1 kv.2) dst

/-! ### Route table (`_parseRoutes`, `_matchRouteByName`, `_match`) -/

/-- A resolved route snapshot — the `routeObj` built inside `_match`
(lines 637–643), plus the `instance` property attached after commit
(line 259). -/
structure RouteObj where
  name : String
  path : String
  params : List (String × String)
  query : Option String := none
  hash : Option String := none
  inst : Option String := none
  deriving DecidableEq, Repr, Inhabited

/-- The history adapter's current location, as read by `_match`
(line 630).  A `history` location object carries `pathname`, `search` and
`hash` — it has no `query` property. -/
structure Location where
  pathname : String := "/"
  search : Option String := none
  hash : Option String := none
  deriving DecidableEq, Repr, Inhabited

/-- One entry of `this.routeData` (lines 546–550): the route definition
with its compiled pattern and declared keys. -/
structure RouteData where
  route : RouteDef
  segs : List Seg
  keys : List String
  deriving DecidableEq, Repr

/-- `_parseRoutes` (lines 542–552): compile every registered route in
registration order. -/
def parseRoutes (routes : List RouteDef) : List RouteData :=
  routes.map fun r =>
    { route := r, segs := parsePattern r.path, keys := keysOf (parsePattern r.path) }

/-- What `_match` returns on success: the fresh `routeObj` plus the matched
route's callback and resolved component (lines 645–649). -/
structure MatchRes where
  route : RouteObj
  hasCallback : Bool
  component : Option String
  deriving DecidableEq, Repr

/-- Build `_match`'s success value for route data `d` matching `path` with
captures `caps` (lines 622–649).  Destructuring `query` from the history
location yields `undefined` (the property does not exist), so
`query || null` is always `null`; `hash || null` turns an empty hash into
`null`.  The `component` key is looked up in `this.components` and only a
registered (function) component survives the later `typeof` test. -/
def mkMatchRes (cfg : Config) (loc : Location) (d : RouteData) (path : String)
    (caps : List String) : MatchRes :=
  { route :=
      { name := d.route.name
        path := path
        params := buildParams d.keys caps
        query := none
        hash := match loc.hash with | some "" => none | h => h }
    hasCallback := d.route.hasCallback
    component := d.route.component.bind fun k =>
      if cfg.components.contains k then some k else none }

/-- The matching loop of `_match` (lines 617–653): try each compiled route
in registration order, return the first whose pattern matches. -/
def findByPath (cfg : Config) (loc : Location) (rd : List RouteData)
    (path : String) : Option MatchRes :=
  match rd with
  | [] => none
  | d :: rest =>
    match matchSegs d.segs (splitPath path) with
    | some caps => some (mkMatchRes cfg loc d path caps)
    | none => findByPath cfg loc rest path

/-- `_matchRouteByName` (lines 586–600): `lodash.find(this.routes, {name})`,
`null` (here `none`) when absent. -/
def matchRouteByName (routes : List RouteDef) (n : String) : Option RouteDef :=
  routes.find? fun r => r.name == n

/-- `_isRouteEqual` (lines 666–682).  The params comparison in the source is
`JSON.stringify(a.params) === JSON.stringify(b.params)`; on ordered string
maps serialization is injective (keys and values are escaped), so it
coincides with equality of the ordered association lists. -/
def isRouteEqual (currentRoute newRoute : Option RouteObj) : Bool :=
  match currentRoute, newRoute with
  | some c, some n => c.name == n.name && decide (c.params = n.params)
  | _, _ => false

/-- `_cleanPath` (lines 728–757) on a genuine string argument: strip the
base path when it is a leading piece, strip `/locale` when configured and
leading, then strip a trailing slash unless the path is exactly `/`. -/
def cleanPath (cfg : Config) (path : String) : String :=
  let c1 := if startsWith path cfg.basePath then path.drop cfg.basePath.length else path
  let c2 :=
    if jsIndexOfFrom c1 (addLeadingSlash cfg.locale) 0 = 0 ∧ cfg.locale.length ≠ 0
    then c1.drop (cfg.locale.length + 1) else c1
  if c2 ≠ "/" then stripTrailingSlash c2 else c2

/-! ### The `navigate` state machine (lines 164–313) -/

/-- JS value of the local variable `path` in `navigate`: `undefined`,
`null`, or an actual string.  `navigate` distinguishes `null` (explicit
check on line 181) from `undefined` (which slips past that check). -/
inductive JsStrVal where
  | undef
  | nullv
  | str (s : String)
  deriving DecidableEq, Repr

/-- A thrown JavaScript error (a `TypeError` from a property read on
`null`/`undefined`). -/
inductive JsError where
  | typeError (msg : String)
  deriving DecidableEq, Repr

/-- Observable side effects of a navigation, in program order. -/
inductive Effect where
  | consoleError (msg : String)
  | debugLog (msg : String)
  | beforeHook (lastRoute : Option RouteObj) (newRoute : RouteObj)
  | historyPush (pathname : String) (search hash : Option String) (state : RouteObj)
  | historyReplace (pathname : String) (search hash : Option String) (state : RouteObj)
  | instantiate (component : String)
  | afterHook (lastRoute : Option RouteObj) (currentRoute : RouteObj)
  | callbackCall (r : RouteObj)
  | mountComponent (component : String)
  | parseAnchors
  deriving DecidableEq, Repr

/-- Which `return` point (or final settle) a `navigate` call reached. -/
inductive NavReturn where
  | errNoPath
  | errNoMatch
  | sameRoute
  | noHandler
  | beforeCancelled
  | afterCancelled
  | settled
  deriving DecidableEq, Repr

/-- The history action constants (`PUSH_ACTION` / `REPLACE_ACTION` /
`POP_ACTION`). -/
inductive Action where
  | push
  | replace
  | pop
  deriving DecidableEq, Repr

/-- Mutable router state owned by the coordinator (constructor
lines 124–130). -/
structure RouterState where
  currentRoute : Option RouteObj := none
  lastRoute : Option RouteObj := none
  action : Action := Action.replace
  isFirstRoute : Bool := true
  location : Location := {}
  deriving DecidableEq, Repr

/-- The argument object of `navigate` (lines 157–162); an absent property
is JS `undefined`. -/
structure NavOptions where
  path : JsStrVal := JsStrVal.undef
  query : Option String := none
  hash : Option String := none
  name : Option String := none
  silent : Bool := false
  params : Option (List (String × String)) := none
  deriving DecidableEq, Repr

/-- The truthiness of the values the installed `beforeEach` / `afterEach`
hooks pass to their `proceed` continuation (`resolve()` with no argument
hits the `resolved = true` default and counts as truthy).  The default
hooks call `next()` and are therefore `⟨true, true⟩`. -/
structure Hooks where
  beforeVal : Bool := true
  afterVal : Bool := true
  deriving DecidableEq, Repr

/-- The router's default hooks (lines 355–371) proceed truthily. -/
def defaultHooks : Hooks := {}

/-- `x || null` on an optional string: JS `||` turns the empty string (and
absence) into `null`. -/
def jsOrNull (o : Option String) : Option String :=
  match o with
  | some s => if s = "" then none else some s
  | none => none

/-- `_cleanPath`'s argument guard (lines 729–733) around `cleanPath`: a
non-string argument is reported and the function returns `undefined`. -/
def cleanPathJs (cfg : Config) (p : JsStrVal) : JsStrVal :=
  match p with
  | JsStrVal.str s => JsStrVal.str (cleanPath cfg s)
  | _ => JsStrVal.undef

/-- `_match`'s argument guard plus lookup: a non-string argument is
reported and yields `undefined` (line 614's bare `return`), a string with
no matching route yields `null` (line 653). -/
inductive JsMatch where
  | undef
  | nullv
  | found (m : MatchRes)
  deriving DecidableEq, Repr

/-- `_match` (lines 610–654) as called from `navigate`. -/
def matchJs (cfg : Config) (loc : Location) (p : JsStrVal) : JsMatch :=
  match p with
  | JsStrVal.str s =>
    match findByPath cfg loc (parseRoutes cfg.routes) s with
    | some m => JsMatch.found m
    | none => JsMatch.nullv
  | _ => JsMatch.undef

/-- Outcome of `navigate`'s resolution phase (lines 164–209): the two
logged-and-dropped failures, or the resolved match together with the
`newRoute` obtained after merging explicit `params` and attaching
`query`/`hash`. -/
inductive ResolveOut where
  | errNoPath
  | errNoMatch
  | resolved (m : MatchRes) (newRoute : RouteObj)
  deriving DecidableEq, Repr

/-- `navigate`'s resolution phase, lines 164–209.

* Lines 176–178: a provided `name` resolves through `_matchRouteByName`;
  when no route carries that name the function returns `null` and reading
  `.path` on it throws a `TypeError` to `navigate`'s caller.
* Line 181: only a literal `null` path is caught here; an `undefined` path
  (no `path`, no `name`) passes through, `_cleanPath` and `_match` both
  return `undefined`, line 191's `match === null` test is false, and
  line 197's `match.route` read throws.
* Lines 202–204: explicit `params` are merged into the matched params
  (`lodash.merge` on the params object).
* Lines 207–209: `query`/`hash` (each already `|| null`) are merged onto
  the route object; `null` is not `undefined`, so it overwrites the values
  `_match` put there. -/
def resolveToRoute (cfg : Config) (st : RouterState) (opts : NavOptions) :
    Except JsError ResolveOut :=
  let pathRes : Except JsError JsStrVal :=
    match opts.name with
    | some n =>
      match matchRouteByName cfg.routes n with
      | some r => Except.ok (JsStrVal.str r.path)
      | none => Except.error (JsError.typeError "Cannot read property 'path' of null")
    | none => Except.ok opts.path
  match pathRes with
  | Except.error e => Except.error e
  | Except.ok path =>
    if path = JsStrVal.nullv then
      Except.ok ResolveOut.errNoPath
    else
      match matchJs cfg st.location (cleanPathJs cfg path) with
      | JsMatch.undef =>
        Except.error (JsError.typeError "Cannot read property 'route' of undefined")
      | JsMatch.nullv => Except.ok ResolveOut.errNoMatch
      | JsMatch.found m =>
        let r1 := match opts.params with
          | some ps => { m.route with params := mergeAssoc m.route.params ps }
          | none => m.route
        Except.ok (ResolveOut.resolved m
          { r1 with query := jsOrNull opts.query, hash := jsOrNull opts.hash })

/-- The pathname committed to history (line 241): locale prefix (line 173)
followed by the cleaned path. -/
def commitPathname (cfg : Config) (nr : RouteObj) : String :=
  (if cfg.locale ≠ "" then addLeadingSlash cfg.locale else "") ++ nr.path

/-- `navigate`'s commit phase (lines 226–312), entered once resolution
succeeded, the route is not equal to the current one and a handler exists:
fire the before hook; on truthy proceed set `currentRoute`, replace
(`silent`) or push the location, instantiate a declared component
(line 259 attaches the instance to the same object `currentRoute` points
to), fire the after hook; on truthy proceed call the callback, mount the
component, re-parse anchors and advance `lastRoute` (both branches of
lines 296–301 leave `lastRoute` pointing at the object `currentRoute`
holds, since `newRoute === this.currentRoute` there). -/
def commitPhase (cfg : Config) (st : RouterState) (opts : NavOptions) (hooks : Hooks)
    (m : MatchRes) (nr : RouteObj) : RouterState × List Effect × NavReturn :=
  let query := jsOrNull opts.query
  let hash := jsOrNull opts.hash
  let beforeEff := [Effect.beforeHook st.lastRoute nr]
  if hooks.beforeVal then
    let pathname := commitPathname cfg nr
    let commitEff := if opts.silent then Effect.historyReplace pathname query hash nr
      else Effect.historyPush pathname query hash nr
    let action := if opts.silent then Action.replace else Action.push
    let cr := match m.component with
      | some c => { nr with inst := some c }
      | none => nr
    let instEff := match m.component with
      | some c => [Effect.instantiate c]
      | none => []
    let newLoc : Location := { pathname := pathname, search := query, hash := hash }
    let effs := beforeEff ++ [commitEff] ++ instEff ++ [Effect.afterHook st.lastRoute cr]
    if hooks.afterVal then
      let cbEff := if m.hasCallback then [Effect.callbackCall cr] else []
      let mountEff := match m.component with
        | some c => [Effect.mountComponent c]
        | none => []
      ({ st with
          currentRoute := some cr
          lastRoute := some cr
          action := action
          isFirstRoute := if st.lastRoute = none then false else st.isFirstRoute
          location := newLoc },
        effs ++ cbEff ++ mountEff ++ [Effect.parseAnchors], NavReturn.settled)
    else
      ({ st with currentRoute := some cr, action := action, location := newLoc },
        effs ++ (if cfg.debugMode then [Effect.debugLog "afterEach stopped route change"] else []),
        NavReturn.afterCancelled)
  else
    (st, beforeEff ++
      (if cfg.debugMode then [Effect.debugLog "beforeEach stopped route change"] else []),
      NavReturn.beforeCancelled)

/-- `navigate` (lines 164–313): resolution phase, the same-route
short-circuit (lines 211–214), the missing-handler short-circuit
(lines 217–223), then the hook/commit pipeline.  The result pairs the new
router state with the ordered effects and the return point reached; a
`TypeError` escapes to the caller as `Except.error`. -/
def navigate (cfg : Config) (st : RouterState) (opts : NavOptions) (hooks : Hooks) :
    Except JsError (RouterState × List Effect × NavReturn) :=
  match resolveToRoute cfg st opts with
  | Except.error e => Except.error e
  | Except.ok ResolveOut.errNoPath =>
    Except.ok (st, [Effect.consoleError "Router.navigate : Cannot get route path"],
      NavReturn.errNoPath)
  | Except.ok ResolveOut.errNoMatch =>
    Except.ok (st, [Effect.consoleError "Router.navigate : No matching route found"],
      NavReturn.errNoMatch)
  | Except.ok (ResolveOut.resolved m nr) =>
    if isRouteEqual st.currentRoute (some nr) then
      Except.ok (st,
        (if cfg.debugMode then [Effect.debugLog "Cancel because same route"] else []),
        NavReturn.sameRoute)
    else if !m.hasCallback && m.component.isNone then
      Except.ok (st,
        (if cfg.debugMode then [Effect.debugLog "Cancel because no callback or component found"]
          else []),
        NavReturn.noHandler)
    else
      Except.ok (commitPhase cfg st opts hooks m nr)

/-- `replace` (lines 343–346): force `silent` and delegate to `navigate`. -/
def replaceNav (cfg : Config) (st : RouterState) (opts : NavOptions) (hooks : Hooks) :
    Except JsError (RouterState × List Effect × NavReturn) :=
  navigate cfg st { opts with silent := true } hooks

/-- Effects of a navigation outcome (none when it threw). -/
def navEffects (r : Except JsError (RouterState × List Effect × NavReturn)) : List Effect :=
  match r with
  | Except.ok (_, effs, _) => effs
  | Except.error _ => []

/-- Router state after a navigation outcome (the prior state when it
threw: every throw point precedes the first state mutation). -/
def stateOf (r : Except JsError (RouterState × List Effect × NavReturn))
    (st : RouterState) : RouterState :=
  match r with
  | Except.ok (s, _, _) => s
  | Except.error _ => st

/-- The history-mutating effects among a navigation's effects. -/
def historyEffects (effs : List Effect) : List Effect :=
  effs.filter fun e =>
    match e with
    | Effect.historyPush _ _ _ _ => true
    | Effect.historyReplace _ _ _ _ => true
    | _ => false

/-- The route a request resolves to, when resolution succeeds. -/
def resolvedRoute (cfg : Config) (st : RouterState) (opts : NavOptions) : Option RouteObj :=
  match resolveToRoute cfg st opts with
  | Except.ok (ResolveOut.resolved _ nr) => some nr
  | _ => none

/-! ### Construction: `_createHistory` (lines 377–412) and `_bind`
(lines 418–428) -/

/-- The history backend actually created. -/
inductive HistoryKind where
  | browser
  | hashHistory
  | memory
  deriving DecidableEq, Repr

/-- Environment facts: whether `window.history.pushState` exists
(`supportsBrowserHistory`). -/
structure Env where
  hasPushState : Bool := true
  deriving DecidableEq, Repr

/-- `_createHistory` (lines 377–412): pick a backend from the mode; an
unsupported mode (unknown, or browser mode without HTML5 history support)
is reported on the console and leaves `this.history` at `null`. -/
def createHistory (env : Env) (cfg : Config) : Option HistoryKind × List Effect :=
  if env.hasPushState && cfg.mode = "browser" then
    (some HistoryKind.browser, [])
  else if cfg.mode = "hash" then
    (some HistoryKind.hashHistory, [])
  else if cfg.mode = "memory" then
    (some HistoryKind.memory, [])
  else
    (none, [Effect.consoleError ("Router : Unknown history browser mode : " ++ cfg.mode)])

/-- `_bind` (lines 418–428): in hash mode attach a `hashchange` listener to
the window; in every other mode call `this.history.listen(...)`, which
throws a `TypeError` when `this.history` is `null`. -/
def bindListeners (mode : String) (hist : Option HistoryKind) : Except JsError Unit :=
  if mode = "hash" then Except.ok ()
  else
    match hist with
    | some _ => Except.ok ()
    | none => Except.error (JsError.typeError "Cannot read property 'listen' of null")

/-- The relevant slice of the constructor (lines 105–142): normalise the
options, create the history backend, bind listeners, parse routes.  Returns
the console effects emitted so far together with either the initialised
router or the error thrown out of the constructor. -/
def construct (env : Env) (o : ConstructorOpts) :
    List Effect × Except JsError (Config × Option HistoryKind × RouterState) :=
  let cfg := mkConfig o
  let (hist, effs) := createHistory env cfg
  match bindListeners cfg.mode hist with
  | Except.error e => (effs, Except.error e)
  | Except.ok _ => (effs, Except.ok (cfg, hist, ({} : RouterState)))

/-! ### Object identity during resolution (lines 197–209)

`lodash.merge(dst, src)` mutates `dst` in place and returns `dst` itself.
To talk about object identity, route objects live in a heap (allocation
order gives the reference); the resolution steps below are the
heap-instrumented versions of `_match`'s allocation of `routeObj`
(lines 637–643) and `navigate`'s two merge statements (lines 202–209). -/

/-- A heap of route objects; a reference is an index in allocation
order. -/
abbrev Heap := List RouteObj

/-- Read the object a reference designates. -/
def heapGet (h : Heap) (r : Nat) : RouteObj :=
  (h[r]?).getD default

/-- Overwrite the object a reference designates (an in-place mutation). -/
def heapSet (h : Heap) (r : Nat) (o : RouteObj) : Heap :=
  List.set h r o

/-- Allocate a fresh object, returning its reference. -/
def heapAlloc (h : Heap) (o : RouteObj) : Heap × Nat :=
  (h ++ [o], List.length h)

/-- Line 203: `newRoute.params = merge(newRoute.params, params)` —
`lodash.merge` writes the explicit params into the params object of the
route at `ref` and returns that same object; the assignment stores it back
onto the same route.  The reference is unchanged. -/
def mergeParamsStep (h : Heap) (ref : Nat) (ps : Option (List (String × String))) :
    Heap × Nat :=
  match ps with
  | some l => (heapSet h ref { heapGet h ref with params := mergeAssoc (heapGet h ref).params l }, ref)
  | none => (h, ref)

/-- Lines 207–209: `newRoute = merge(newRoute, { query, hash })` —
`lodash.merge` assigns `query` and `hash` onto the object at `ref` and
returns that same object, so `newRoute` still holds the same reference. -/
def mergeQueryHashStep (h : Heap) (ref : Nat) (query hash : Option String) :
    Heap × Nat :=
  (heapSet h ref { heapGet h ref with query := query, hash := hash }, ref)

/-- The heap-instrumented resolution tail: `_match` allocates the fresh
`routeObj` (lines 637–643), then the two merges of lines 202–209 run on
it.  Returns the final heap and the reference `navigate`'s `newRoute`
variable holds afterwards. -/
def resolveHeap (cfg : Config) (loc : Location) (path : String)
    (ps : Option (List (String × String))) (query hash : Option String)
    (h : Heap) : Option (Heap × Nat) :=
  match findByPath cfg loc (parseRoutes cfg.routes) path with
  | none => none
  | some m =>
    let (h1, ref) := heapAlloc h m.route
    let (h2, ref2) := mergeParamsStep h1 ref ps
    some (mergeQueryHashStep h2 ref2 query hash)

/-! ### The spec's notion of route-state equality

The spec defines RouteState equality through deep equality of the `params`
maps, with key order irrelevant; the code compares `JSON.stringify`
serializations, which are key-order sensitive.  The definitions below
follow the spec's words, for comparison against `isRouteEqual`. -/

/-- Value bound to a key in a params map. -/
def lookupParam (ps : List (String × String)) (k : String) : Option String :=
  (ps.find? fun kv => kv.1 == k).map fun kv => kv.2

/-- Modelled from the spec: deep equality of two params maps — the same
keys bound to the same values, irrespective of insertion order. -/
def deepEqualParams (a b : List (String × String)) : Bool :=
  (a.all fun kv => lookupParam b kv.1 == some kv.2) &&
  (b.all fun kv => lookupParam a kv.1 == some kv.2)

/-! ### Concrete scenarios used by witnesses and counterexamples -/

/-- A router with a single route `home` at `/a` carrying a callback. -/
def cfgA : Config :=
  mkConfig { routes := [{ name := "home", path := "/a", hasCallback := true }] }

/-- Navigate to `/a` with explicit params inserted in the order `x`, `y`. -/
def optsA1 : NavOptions :=
  { path := JsStrVal.str "/a", params := some [("x", "1"), ("y", "2")] }

/-- Navigate to `/a` with the same params inserted in the order `y`, `x`. -/
def optsA2 : NavOptions :=
  { path := JsStrVal.str "/a", params := some [("y", "2"), ("x", "1")] }

/-- The match `_match` produces for `/a` in `cfgA`. -/
def mA1 : MatchRes :=
  { route := { name := "home", path := "/a", params := [] }
    hasCallback := true
    component := none }

/-- The route `optsA1` resolves to in `cfgA`. -/
def nrA1 : RouteObj :=
  { name := "home", path := "/a", params := [("x", "1"), ("y", "2")] }

/-- Router state after navigating with `optsA1` from a fresh router. -/
def stA1 : RouterState :=
  stateOf (navigate cfgA {} optsA1 defaultHooks) {}

/-- Hooks whose `beforeEach` invokes `proceed(false)`. -/
def hooksNoBefore : Hooks := { beforeVal := false }

/-- Router configuration of the C7 scenario. -/
def cfg7 : Config := mkConfig { basePath := "/app", locale := "en" }

/-- A heap holding one already-resolved route object, as it stands right
after `_match` allocated it. -/
def heap8 : Heap := [{ name := "home", path := "/a", params := [] }]

/-- The heap produced by running the heap-instrumented resolution tail of
`cfgA` on a one-object heap, with explicit params `x = 1` and query `?q`:
the pre-existing object at reference 0 is untouched, the fresh object at
reference 1 carries the merged fields. -/
def heap8' : Heap :=
  [{ name := "home", path := "/a", params := [] },
   { name := "home", path := "/a", params := [("x", "1")], query := some "?q" }]

/-- Compiled route data for pattern `/b` (does not match `/users/42`). -/
def rdB : RouteData :=
  { route := { name := "b", path := "/b", hasCallback := true }
    segs := parsePattern "/b", keys := keysOf (parsePattern "/b") }

/-- Compiled route data for pattern `/users/:id`. -/
def rdUsers : RouteData :=
  { route := { name := "users", path := "/users/:id", hasCallback := true }
    segs := parsePattern "/users/:id", keys := keysOf (parsePattern "/users/:id") }

/-- Compiled route data for pattern `/users/:rest`, which also matches
`/users/42` but is registered after `rdUsers`. -/
def rdAll : RouteData :=
  { route := { name := "all", path := "/users/:rest", hasCallback := true }
    segs := parsePattern "/users/:rest", keys := keysOf (parsePattern "/users/:rest") }

/-- Router configuration of the C4 scenario: one route named `home`. -/
def cfg4 : Config :=
  mkConfig { routes := [{ name := "home", path := "/", hasCallback := true }] }

/-! ### Helper lemmas -/

/-- A successful segment match captures one value per declared parameter. -/
theorem matchSegs_length (segs : List Seg) : ∀ (vs caps : List String),
    matchSegs segs vs = some caps → caps.length = (keysOf segs).length := by
  induction segs with
  | nil =>
    intro vs caps h
    cases vs with
    | nil => simp [matchSegs] at h; simp [keysOf, ← h]
    | cons v vt => simp [matchSegs] at h
  | cons s t ih =>
    intro vs caps h
    cases s with
    | static str =>
      cases vs with
      | nil => simp [matchSegs] at h
      | cons v vt =>
        rw [matchSegs] at h
        split at h
        · exact (ih vt caps h).trans (by simp [keysOf])
        · exact absurd h (by simp)
    | param k =>
      cases vs with
      | nil => simp [matchSegs] at h
      | cons v vt =>
        rw [matchSegs] at h
        split at h
        · exact absurd h (by simp)
        · cases hmt : matchSegs t vt with
          | none => rw [hmt] at h; simp at h
          | some c =>
            rw [hmt] at h
            simp at h
            rw [← h]
            simp [keysOf, ih vt c hmt]

/-- Assigning a fresh key appends it. -/
theorem insertAssoc_fresh (acc : List (String × String)) (k : String) (v : String)
    (h : k ∉ acc.map Prod.fst) : insertAssoc acc k v = acc ++ [(k, v)] := by
  induction acc with
  | nil => rfl
  | cons p t ih =>
    obtain ⟨k', v'⟩ := p
    simp only [List.map_cons, List.mem_cons] at h
    push_neg at h
    rw [insertAssoc, if_neg (fun hk => h.1 hk.symm), ih h.2]
    rfl

/-- Folding assignments of pairwise-distinct fresh keys over an object
appends them in order. -/
theorem foldl_insertAssoc_fresh (l : List (String × String)) :
    ∀ acc : List (String × String), (l.map Prod.fst).Nodup →
    (∀ p ∈ l, p.1 ∉ acc.map Prod.fst) →
    l.foldl (fun a kv => insertAssoc a kv.1 kv.2) acc = acc ++ l := by
  induction l with
  | nil => intro acc _ _; simp
  | cons p t ih =>
    intro acc hnd hdisj
    simp only [List.map_cons, List.nodup_cons] at hnd
    rw [List.foldl_cons, insertAssoc_fresh acc p.1 p.2 (hdisj p (List.mem_cons_self p t))]
    rw [ih (acc ++ [(p.1, p.2)]) hnd.2]
    · simp
    · intro q hq
      simp only [List.map_append, List.mem_append]
      push_neg
      refine ⟨hdisj q (List.mem_cons_of_mem p hq), ?_⟩
      simp only [List.map_cons, List.map_nil, List.mem_singleton]
      intro hqp
      exact hnd.1 (hqp ▸ List.mem_map_of_mem Prod.fst hq)

/-- The parameter-building loop sends distinct declared keys to the
positional zip of keys with captures. -/
theorem buildParams_eq_zip (keys caps : List String)
    (hnd : keys.Nodup) (hlen : caps.length = keys.length) :
    buildParams keys caps = keys.zip caps := by
  have hmap : (keys.zip caps).map Prod.fst = keys :=
    List.map_fst_zip keys caps (le_of_eq hlen.symm)
  have hnd' : ((keys.zip caps).map Prod.fst).Nodup := by rw [hmap]; exact hnd
  rw [buildParams, foldl_insertAssoc_fresh (keys.zip caps) [] hnd' (by simp)]
  simp

/-- Writing one heap cell leaves the others unchanged. -/
theorem heapGet_set_ne (hp : Heap) (n : Nat) (o : RouteObj) (i : Nat) (hne : n ≠ i) :
    heapGet (heapSet hp n o) i = heapGet hp i := by
  unfold heapGet heapSet
  rw [List.getElem?_set_ne hne]

/-- Allocation at the end of the heap leaves existing cells unchanged. -/
theorem heapGet_append_lt (hp t : Heap) (i : Nat) (hi : i < hp.length) :
    heapGet (hp ++ t) i = heapGet hp i := by
  unfold heapGet
  rw [List.getElem?_append_left hi]

/-- `commitPhase` never reports the same-route short-circuit. -/
theorem commitPhase_ret_ne_sameRoute (cfg : Config) (st : RouterState)
    (opts : NavOptions) (hooks : Hooks) (m : MatchRes) (nr : RouteObj) :
    (commitPhase cfg st opts hooks m nr).2.2 ≠ NavReturn.sameRoute := by
  cases hb : hooks.beforeVal <;> cases ha : hooks.afterVal <;> cases hs : opts.silent <;>
    simp [commitPhase, hb, ha, hs]

/-! ### Claim theorems -/

/-- Claim C1: when several registered route patterns match a path,
`_match` returns the route that was registered first — the first matching
entry of `routeData` in registration order, whatever routes (matching or
not) come after it; no longest-match or specificity ranking is applied. -/
theorem findByPath_first_registered (cfg : Config) (loc : Location)
    (pre post : List RouteData) (d : RouteData) (path : String) (caps : List String)
    (hd : matchSegs d.segs (splitPath path) = some caps)
    (hpre : ∀ d' ∈ pre, matchSegs d'.segs (splitPath path) = none) :
    findByPath cfg loc (pre ++ d :: post) path = some (mkMatchRes cfg loc d path caps) := by
  induction pre with
  | nil => simp [findByPath, hd]
  | cons d' t ih =>
    have h' := hpre d' (List.mem_cons_self d' t)
    simp only [List.cons_append, findByPath, h']
    exact ih fun x hx => hpre x (List.mem_cons_of_mem d' hx)

/-- Claim C1 witness: `/users/:id` and `/users/:rest` both match
`/users/42`; the first-registered `/users/:id` wins over the later
`/users/:rest`, after skipping the non-matching `/b`. -/
theorem findByPath_first_registered_witness :
    findByPath cfgA {} ([rdB] ++ rdUsers :: [rdAll]) "/users/42" =
      some (mkMatchRes cfgA {} rdUsers "/users/42" ["42"]) :=
  findByPath_first_registered cfgA {} [rdB] [rdAll] rdUsers "/users/42" ["42"]
    (by decide) (by decide)

/-- Claim C3: for a pattern with pairwise-distinct declared parameter
names, a successful match captures exactly one value per declared name and
`_match`'s parameter loop binds the i-th declared name to the i-th
captured segment: the params map is the positional zip of the declared
keys with the captures. -/
theorem match_params_positional (p path : String) (caps : List String)
    (hnd : (keysOf (parsePattern p)).Nodup)
    (hm : matchSegs (parsePattern p) (splitPath path) = some caps) :
    buildParams (keysOf (parsePattern p)) caps = (keysOf (parsePattern p)).zip caps ∧
    caps.length = (keysOf (parsePattern p)).length := by
  have hlen := matchSegs_length (parsePattern p) (splitPath path) caps hm
  exact ⟨buildParams_eq_zip _ _ hnd hlen, hlen⟩

/-- Claim C3 witness: `/users/:id` against `/users/42` yields the single
binding `id ↦ 42`. -/
theorem match_params_positional_witness :
    buildParams (keysOf (parsePattern "/users/:id")) ["42"] =
      (keysOf (parsePattern "/users/:id")).zip ["42"] ∧
    (["42"] : List String).length = (keysOf (parsePattern "/users/:id")).length :=
  match_params_positional "/users/:id" "/users/42" ["42"] (by decide) (by decide)

/-- Claim C4 (code bug): navigating by a name that matches no registered
route throws a `TypeError` out of `navigate` — `_matchRouteByName` returns
`null` and line 177 reads `.path` on it — instead of logging and dropping
the request. -/
theorem navigate_unknown_name_throws :
    navigate cfg4 {} { name := some "missing" } defaultHooks =
      Except.error (JsError.typeError "Cannot read property 'path' of null") := rfl

/-- Claim C7 counterexample: with basePath `/app` and locale `en`,
cleaning `/app/en/about/` does not yield `about`. -/
theorem cleanPath_c7_counterexample :
    cleanPath cfg7 "/app/en/about/" ≠ "about" := by decide

/-- Claim C7 (amended): with basePath `/app` and locale `en`, cleaning
`/app/en/about/` yields `/about`: the base-path prefix and the locale name
with the slash before it are removed — the slash that starts the next
segment is kept — and the trailing slash is stripped. -/
theorem cleanPath_c7 :
    cleanPath cfg7 "/app/en/about/" = "/about" := by decide

/-- Claim C9 (code bug): constructing with an unsupported mode (an unknown
mode string, or browser mode without HTML5 history support) logs the
configuration error and leaves `this.history` at `null`, but the
constructor then throws a `TypeError` from `_bind`'s
`this.history.listen(...)` instead of returning normally. -/
theorem construct_unsupported_mode_throws :
    construct {} { mode := "foo" } =
      ([Effect.consoleError "Router : Unknown history browser mode : foo"],
        Except.error (JsError.typeError "Cannot read property 'listen' of null")) ∧
    construct { hasPushState := false } { mode := "browser" } =
      ([Effect.consoleError "Router : Unknown history browser mode : browser"],
        Except.error (JsError.typeError "Cannot read property 'listen' of null")) :=
  ⟨rfl, rfl⟩

/-- Claim C2 counterexample: a request that resolves to a route with the
same name and deep-equal params as `currentRoute` — the same bindings with
a different key insertion order — is not a no-op: `_isRouteEqual` compares
`JSON.stringify` serializations, which are key-order sensitive, so the
navigation proceeds, history is pushed and `currentRoute` is replaced. -/
theorem navigate_deep_equal_reordered_not_noop :
    (match resolvedRoute cfgA stA1 optsA2, stA1.currentRoute with
      | some nr, some cur => nr.name == cur.name && deepEqualParams nr.params cur.params
      | _, _ => false) = true ∧
    historyEffects (navEffects (navigate cfgA stA1 optsA2 defaultHooks)) ≠ [] ∧
    (stateOf (navigate cfgA stA1 optsA2 defaultHooks) stA1).currentRoute ≠
      stA1.currentRoute := by
  refine ⟨by decide, by decide, by decide⟩

/-- Claim C2 (amended): the no-op short-circuit fires when the resolved
route has the same name and identically serialized params — the same
key/value list in the same order — as `currentRoute`: then no hook fires,
no history entry is pushed or replaced, and the router state is returned
unchanged.  Deep-equal params in a different key order do not
short-circuit. -/
theorem navigate_same_serialized_route_noop (cfg : Config) (st : RouterState)
    (opts : NavOptions) (hooks : Hooks) (m : MatchRes) (nr cur : RouteObj)
    (hres : resolveToRoute cfg st opts = Except.ok (ResolveOut.resolved m nr))
    (hcur : st.currentRoute = some cur)
    (hname : cur.name = nr.name) (hparams : cur.params = nr.params) :
    navigate cfg st opts hooks =
      Except.ok (st,
        (if cfg.debugMode then [Effect.debugLog "Cancel because same route"] else []),
        NavReturn.sameRoute) := by
  have heq : isRouteEqual st.currentRoute (some nr) = true := by
    rw [hcur]
    simp [isRouteEqual, hname, hparams]
  simp [navigate, hres, heq]

/-- Claim C2 witness: repeating the navigation with params supplied in the
same order short-circuits, leaving the state untouched with no effects. -/
theorem navigate_same_serialized_route_noop_witness :
    navigate cfgA stA1 optsA1 defaultHooks =
      Except.ok (stA1,
        (if cfgA.debugMode then [Effect.debugLog "Cancel because same route"] else []),
        NavReturn.sameRoute) :=
  navigate_same_serialized_route_noop cfgA stA1 optsA1 defaultHooks mA1 nrA1 nrA1
    rfl (by decide) rfl rfl

/-- Claim C5: a navigation that reaches the commit step emits exactly one
history mutation — a replace when the request is silent, a push when it is
not — and the public `replace` operation is `navigate` with `silent`
forced to `true`. -/
theorem navigate_silent_selects_replace (cfg : Config) (st : RouterState)
    (opts : NavOptions) (hooks : Hooks) (m : MatchRes) (nr : RouteObj)
    (hres : resolveToRoute cfg st opts = Except.ok (ResolveOut.resolved m nr))
    (hne : isRouteEqual st.currentRoute (some nr) = false)
    (hhandler : m.hasCallback = true ∨ m.component.isSome = true)
    (hbefore : hooks.beforeVal = true) :
    historyEffects (navEffects (navigate cfg st opts hooks)) =
      [if opts.silent then
        Effect.historyReplace (commitPathname cfg nr) (jsOrNull opts.query)
          (jsOrNull opts.hash) nr
      else
        Effect.historyPush (commitPathname cfg nr) (jsOrNull opts.query)
          (jsOrNull opts.hash) nr] ∧
    replaceNav cfg st opts hooks = navigate cfg st { opts with silent := true } hooks := by
  refine ⟨?_, rfl⟩
  rcases hhandler with hcb | hcomp'
  · cases ha : hooks.afterVal <;> cases hs : opts.silent <;> cases hcomp : m.component <;>
      cases hdm : cfg.debugMode <;>
        simp [navigate, hres, hne, commitPhase, hbefore, ha, hs, hcb, hcomp, hdm,
          navEffects, historyEffects]
  · obtain ⟨c, hcomp⟩ := Option.isSome_iff_exists.mp hcomp'
    cases ha : hooks.afterVal <;> cases hs : opts.silent <;> cases hcb : m.hasCallback <;>
      cases hdm : cfg.debugMode <;>
        simp [navigate, hres, hne, commitPhase, hbefore, ha, hs, hcb, hcomp, hdm,
          navEffects, historyEffects]

/-- Claim C5 witness: a non-silent navigation from a fresh router pushes
exactly one history entry, and `replace` delegates to `navigate` with
`silent := true`. -/
theorem navigate_silent_selects_replace_witness :
    historyEffects (navEffects (navigate cfgA {} optsA1 defaultHooks)) =
      [if optsA1.silent then
        Effect.historyReplace (commitPathname cfgA nrA1) (jsOrNull optsA1.query)
          (jsOrNull optsA1.hash) nrA1
      else
        Effect.historyPush (commitPathname cfgA nrA1) (jsOrNull optsA1.query)
          (jsOrNull optsA1.hash) nrA1] ∧
    replaceNav cfgA {} optsA1 defaultHooks =
      navigate cfgA {} { optsA1 with silent := true } defaultHooks :=
  navigate_silent_selects_replace cfgA {} optsA1 defaultHooks mA1 nrA1
    rfl (by decide) (Or.inl (by decide)) rfl

/-- Claim C6: when the before-each hook proceeds with a falsy value the
navigation is aborted atomically — the state (and so `currentRoute`) is
returned unchanged and the only effects are the before-hook invocation
itself and an optional debug log: no history push or replace, no
after-hook, no route callback. -/
theorem navigate_before_falsy_aborts (cfg : Config) (st : RouterState)
    (opts : NavOptions) (hooks : Hooks) (m : MatchRes) (nr : RouteObj)
    (hres : resolveToRoute cfg st opts = Except.ok (ResolveOut.resolved m nr))
    (hne : isRouteEqual st.currentRoute (some nr) = false)
    (hhandler : m.hasCallback = true ∨ m.component.isSome = true)
    (hbefore : hooks.beforeVal = false) :
    navigate cfg st opts hooks =
      Except.ok (st,
        Effect.beforeHook st.lastRoute nr ::
          (if cfg.debugMode then [Effect.debugLog "beforeEach stopped route change"] else []),
        NavReturn.beforeCancelled) := by
  have hguard : (!m.hasCallback && m.component.isNone) = false := by
    rcases hhandler with h | h
    · simp [h]
    · cases hc : m.component
      · rw [hc] at h; simp at h
      · simp [hc]
  simp [navigate, hres, hne, hguard, commitPhase, hbefore]

/-- Claim C6 witness: a before-hook that proceeds falsily leaves the fresh
router state untouched and fires nothing but the before-hook itself. -/
theorem navigate_before_falsy_aborts_witness :
    navigate cfgA {} optsA1 hooksNoBefore =
      Except.ok (({} : RouterState),
        Effect.beforeHook ({} : RouterState).lastRoute nrA1 ::
          (if cfgA.debugMode then [Effect.debugLog "beforeEach stopped route change"] else []),
        NavReturn.beforeCancelled) :=
  navigate_before_falsy_aborts cfgA {} optsA1 hooksNoBefore mA1 nrA1
    rfl (by decide) (Or.inl (by decide)) rfl

/-- Claim C10: `_isRouteEqual` with a `null` current route returns
`false`, so a navigation performed while `currentRoute` is still `null`
(the first after construction) can never end in the same-route
short-circuit. -/
theorem isRouteEqual_null_never_short_circuits (r : Option RouteObj) (cfg : Config)
    (st : RouterState) (opts : NavOptions) (hooks : Hooks)
    (hcur : st.currentRoute = none) (s : RouterState) (effs : List Effect) :
    isRouteEqual none r = false ∧
    navigate cfg st opts hooks ≠ Except.ok (s, effs, NavReturn.sameRoute) := by
  constructor
  · cases r <;> rfl
  · intro heq
    rw [navigate] at heq
    cases hres : resolveToRoute cfg st opts with
    | error e => rw [hres] at heq; exact absurd heq (by simp)
    | ok ro =>
      rw [hres] at heq
      cases ro with
      | errNoPath => simp at heq
      | errNoMatch => simp at heq
      | resolved m nr =>
        have hfalse : isRouteEqual st.currentRoute (some nr) = false := by
          rw [hcur]; rfl
        simp only [hfalse, Bool.false_eq_true, if_false] at heq
        split at heq
        · simp at heq
        · have h2 := Except.ok.inj heq
          have h3 : (commitPhase cfg st opts hooks m nr).2.2 = NavReturn.sameRoute := by
            rw [h2]
          exact commitPhase_ret_ne_sameRoute cfg st opts hooks m nr h3

/-- Claim C10 witness: on a fresh router (null `currentRoute`) the
equality test is false and the first navigation does not short-circuit. -/
theorem isRouteEqual_null_never_short_circuits_witness :
    isRouteEqual none (some nrA1) = false ∧
    navigate cfgA {} optsA1 defaultHooks ≠
      Except.ok (({} : RouterState), [], NavReturn.sameRoute) :=
  isRouteEqual_null_never_short_circuits (some nrA1) cfgA {} optsA1 defaultHooks rfl {} []

/-- Claim C8 counterexample: `lodash.merge` mutates its first argument and
returns it, so attaching `query`/`hash` (lines 207–209) hands back the
very same object, now changed — it does not produce a new object leaving
the existing RouteState intact. -/
theorem mergeQueryHash_mutates_in_place :
    (mergeQueryHashStep heap8 0 (some "?q") none).2 = 0 ∧
    heapGet (mergeQueryHashStep heap8 0 (some "?q") none).1 0 ≠ heapGet heap8 0 := by
  refine ⟨rfl, by decide⟩

/-- Claim C8 (amended): the param merge and the query/hash merge mutate
the resolved RouteState in place (the reference `navigate` holds is the
one `_match` returned), but that object is freshly allocated by this very
navigation's `_match` call, so every route object that existed before the
navigation — in particular any RouteState already handed to hooks or held
in `currentRoute`/`lastRoute` — is left untouched by the merges. -/
theorem resolveHeap_touches_only_fresh (cfg : Config) (loc : Location) (path : String)
    (ps : Option (List (String × String))) (q hs : Option String) (h h' : Heap)
    (ref : Nat) (hres : resolveHeap cfg loc path ps q hs h = some (h', ref)) :
    ref = h.length ∧ ∀ i, i < h.length → heapGet h' i = heapGet h i := by
  rw [resolveHeap] at hres
  cases hfm : findByPath cfg loc (parseRoutes cfg.routes) path with
  | none => rw [hfm] at hres; exact absurd hres (by simp)
  | some m =>
    rw [hfm] at hres
    simp only [heapAlloc] at hres
    cases ps with
    | none =>
      simp only [mergeParamsStep, mergeQueryHashStep, Option.some.injEq, Prod.mk.injEq] at hres
      obtain ⟨hh, href⟩ := hres
      refine ⟨href.symm, fun i hi => ?_⟩
      rw [← hh, heapGet_set_ne _ _ _ _ (Nat.ne_of_gt hi), heapGet_append_lt _ _ _ hi]
    | some l =>
      simp only [mergeParamsStep, mergeQueryHashStep, Option.some.injEq, Prod.mk.injEq] at hres
      obtain ⟨hh, href⟩ := hres
      refine ⟨href.symm, fun i hi => ?_⟩
      rw [← hh, heapGet_set_ne _ _ _ _ (Nat.ne_of_gt hi),
        heapGet_set_ne _ _ _ _ (Nat.ne_of_gt hi), heapGet_append_lt _ _ _ hi]

/-- Claim C8 witness: running the heap-instrumented resolution over a heap
with one pre-existing route object allocates the result at the fresh
reference 1 and leaves the object at reference 0 unchanged. -/
theorem resolveHeap_touches_only_fresh_witness :
    (1 : Nat) = heap8.length ∧ heapGet heap8' 0 = heapGet heap8 0 :=
  ⟨(resolveHeap_touches_only_fresh cfgA {} "/a" (some [("x", "1")]) (some "?q") none
      heap8 heap8' 1 (by decide)).1,
   (resolveHeap_touches_only_fresh cfgA {} "/a" (some [("x", "1")]) (some "?q") none
      heap8 heap8' 1 (by decide)).2 0 (by decide)⟩

end QuarkRouter
